import Mathlib

/-!
Verification of the metrics-computation core of the eye-tracking dashboard
(`streamlit_app.py`).  The Python core works on a pandas dataframe with
numeric columns `x`, `y`, `duration`, `timestamp`; we embed rows as a
structure over `ℚ` (the idealisation of the numeric columns) and a dataframe
as a `List` of rows.  The undefined value produced by `min()` on an empty
selection (a float NaN, rendered "N/A") is embedded as `Option.none`;
`none` fails the `< 1000` comparison exactly as NaN (and as the sentinel
99999 substituted for the string "N/A") does in Python.
-/

/-- One gaze sample: one row of the input dataframe. -/
structure Sample where
  x : ℚ
  y : ℚ
  duration : ℚ
  timestamp : ℚ
deriving DecidableEq, Repr

/-- The fixed AOI table, in the declaration (= dict iteration) order of
`streamlit_app.py` lines 7-12: name ↦ ((x1,y1),(x2,y2)). -/
def AOIs : List (String × ((ℚ × ℚ) × (ℚ × ℚ))) :=
  [("Component Bin", ((100, 100), (200, 200))),
   ("Instruction Label", ((300, 100), (400, 200))),
   ("Tool Area", ((100, 300), (200, 400))),
   ("Assembly Zone", ((300, 300), (400, 400)))]

/-- Source `is_in_aoi` (lines 14-16): inclusive containment in an axis-aligned
rectangle. -/
def is_in_aoi (x y : ℚ) (aoi_bounds : (ℚ × ℚ) × (ℚ × ℚ)) : Bool :=
  let x1 := aoi_bounds.1.1
  let y1 := aoi_bounds.1.2
  let x2 := aoi_bounds.2.1
  let y2 := aoi_bounds.2.2
  decide (x1 ≤ x ∧ x ≤ x2 ∧ y1 ≤ y ∧ y ≤ y2)

/-- The AOI label a row ends up with after the loop of lines 19-22: the
column starts as "Outside" and each AOI of the table, in order, overwrites
the label of the rows its rectangle contains (so a later match overwrites an
earlier one). -/
def label_of (s : Sample) : String :=
  AOIs.foldl (fun acc nb => if is_in_aoi s.x s.y nb.2 then nb.1 else acc) "Outside"

/-- The labeled dataframe after lines 19-22: each row keeps its four numeric
fields and carries the derived `AOI` label. -/
def classify (ds : List Sample) : List (Sample × String) :=
  ds.map (fun s => (s, label_of s))

/-- Source `df.groupby('AOI')['duration'].sum()` evaluated at one label: the sum of
`duration` over the rows carrying that label (line 24). -/
def fixation_time (ds : List Sample) (lab : String) : ℚ :=
  (((classify ds).filter (fun p => p.2 = lab)).map (fun p => p.1.duration)).sum

/-- The distinct labels present in the grouped series (group keys of
line 24). -/
def groupLabels (ds : List Sample) : List String :=
  ((classify ds).map Prod.snd).dedup

/-- Source `fixation_time.sum()` (line 25): the grouped series summed over its
groups. -/
def total_fixation (ds : List Sample) : ℚ :=
  ((groupLabels ds).map (fixation_time ds)).sum

/-- Source `df['duration'].mean()` (line 31). On the non-degenerate path the list is
nonempty; `ℚ` division by zero yields 0 but that branch is never taken
there. -/
def avg_fixation_duration (ds : List Sample) : ℚ :=
  ((ds.map Sample.duration).sum) / (ds.length : ℚ)

/-- Source `df[df['AOI'] == "Instruction Label"]['timestamp'].min()` (line 32):
`none` embeds the NaN a pandas `min` of an empty selection produces. -/
def time_to_first_fixation (ds : List Sample) : Option ℚ :=
  (((classify ds).filter (fun p => p.2 = "Instruction Label")).map
    (fun p => p.1.timestamp)).min?

/-- Python's `round(q, 2)` on an exact value: round half to even at the
second decimal. -/
def roundHalfEven (q : ℚ) : ℤ :=
  let f : ℤ := ⌊q⌋
  if q - f < 1 / 2 then f
  else if 1 / 2 < q - f then f + 1
  else if f % 2 = 0 then f else f + 1

/-- Python `round(x, 2)`: scale by 100, round half to even, scale back. -/
def round2 (q : ℚ) : ℚ :=
  (roundHalfEven (q * 100) : ℚ) / 100

/-- Source `calculate_efficiency_score` (lines 42-56).  `time_to_first` is the raw
first-fixation time: `none` stands for the undefined value ("N/A"/NaN),
which the source maps to the sentinel 99999 (a string) or which fails the
`< 1000` comparison outright (NaN); both behave as the sentinel here. -/
def calculate_efficiency_score (coverage avg_fix : ℚ) (time_to_first : Option ℚ) : ℤ :=
  let t : ℚ := time_to_first.getD 99999
  let score : ℤ := 0
  let score := if 90 ≤ coverage then score + 30 else score
  let score := if avg_fix < 200 then score + 10 else score
  let score := if t < 1000 then score + 15 else score
  let score := if 95 < coverage then score + 20 else score
  let score := if 85 < coverage ∧ avg_fix < 220 then score + 25 else score
  score

/-- Source `classify_performance` (lines 58-66). -/
def classify_performance (score : ℤ) : String :=
  if 85 ≤ score then "Efficient"
  else if 70 ≤ score then "Acceptable"
  else if 50 ≤ score then "Needs Attention"
  else "High Risk"

/-- The five-key metrics record returned on the non-degenerate path
(lines 34-40). `timeToFirstFixation = none` is what the UI renders as the
literal string "N/A". -/
structure Metrics where
  aoiCoverage : ℚ
  avgFixationDuration : ℚ
  timeToFirstFixation : Option ℚ
  efficiencyScore : ℤ
  performanceLevel : String
deriving DecidableEq, Repr

/-- Source `calculate_metrics` (lines 18-40).  `none` embeds the empty dict
returned on the degenerate path (line 28). -/
def calculate_metrics (ds : List Sample) : Option Metrics :=
  let total := total_fixation ds
  if total = 0 then none
  else
    let aoi_coverage := (total - fixation_time ds "Outside") / total * 100
    let avg := avg_fixation_duration ds
    let ttf := time_to_first_fixation ds
    some
      { aoiCoverage := round2 aoi_coverage
        avgFixationDuration := round2 avg
        timeToFirstFixation := ttf.map round2
        efficiencyScore := calculate_efficiency_score aoi_coverage avg ttf
        performanceLevel :=
          classify_performance (calculate_efficiency_score aoi_coverage avg ttf) }

/-- Classification as the SPEC words it (first matching AOI wins, default
"Outside"); to be compared with the source's `label_of`. -/
def firstMatchLabel_spec (s : Sample) : String :=
  match AOIs.find? (fun nb => is_in_aoi s.x s.y nb.2) with
  | some nb => nb.1
  | none => "Outside"

/-- The one-call dataframe transition of `calculate_metrics`: the call reads
only the numeric columns of the incoming dataframe state (any pre-existing
`AOI` column is overwritten by line 19 before it is ever read) and leaves
the relabeled dataframe behind. -/
def calculate_metrics_step (st : List (Sample × String)) :
    Option Metrics × List (Sample × String) :=
  (calculate_metrics (st.map Prod.fst), classify (st.map Prod.fst))

/-- Membership in a rectangle, unfolded. -/
lemma is_in_aoi_iff (x y x1 y1 x2 y2 : ℚ) :
    is_in_aoi x y ((x1, y1), (x2, y2)) = true ↔
      x1 ≤ x ∧ x ≤ x2 ∧ y1 ≤ y ∧ y ≤ y2 := by
  simp [is_in_aoi]

lemma disj_CB_IL (x y : ℚ) (h1 : is_in_aoi x y ((100, 100), (200, 200)) = true)
    (h2 : is_in_aoi x y ((300, 100), (400, 200)) = true) : False := by
  rw [is_in_aoi_iff] at h1 h2
  linarith [h1.2.1, h2.1]

lemma disj_CB_TA (x y : ℚ) (h1 : is_in_aoi x y ((100, 100), (200, 200)) = true)
    (h2 : is_in_aoi x y ((100, 300), (200, 400)) = true) : False := by
  rw [is_in_aoi_iff] at h1 h2
  linarith [h1.2.2.2, h2.2.2.1]

lemma disj_CB_AZ (x y : ℚ) (h1 : is_in_aoi x y ((100, 100), (200, 200)) = true)
    (h2 : is_in_aoi x y ((300, 300), (400, 400)) = true) : False := by
  rw [is_in_aoi_iff] at h1 h2
  linarith [h1.2.1, h2.1]

lemma disj_IL_TA (x y : ℚ) (h1 : is_in_aoi x y ((300, 100), (400, 200)) = true)
    (h2 : is_in_aoi x y ((100, 300), (200, 400)) = true) : False := by
  rw [is_in_aoi_iff] at h1 h2
  linarith [h1.2.2.2, h2.2.2.1]

lemma disj_IL_AZ (x y : ℚ) (h1 : is_in_aoi x y ((300, 100), (400, 200)) = true)
    (h2 : is_in_aoi x y ((300, 300), (400, 400)) = true) : False := by
  rw [is_in_aoi_iff] at h1 h2
  linarith [h1.2.2.2, h2.2.2.1]

lemma disj_TA_AZ (x y : ℚ) (h1 : is_in_aoi x y ((100, 300), (200, 400)) = true)
    (h2 : is_in_aoi x y ((300, 300), (400, 400)) = true) : False := by
  rw [is_in_aoi_iff] at h1 h2
  linarith [h1.2.1, h2.1]

/-- The overwrite loop of lines 19-22 (last match wins) agrees with the
first-match scan the spec describes, because the four rectangles are
pairwise disjoint. -/
lemma label_of_eq_firstMatch (s : Sample) :
    label_of s = firstMatchLabel_spec s := by
  cases h1 : is_in_aoi s.x s.y ((100, 100), (200, 200)) <;>
  cases h2 : is_in_aoi s.x s.y ((300, 100), (400, 200)) <;>
  cases h3 : is_in_aoi s.x s.y ((100, 300), (200, 400)) <;>
  cases h4 : is_in_aoi s.x s.y ((300, 300), (400, 400)) <;>
    simp only [label_of, firstMatchLabel_spec, AOIs, List.foldl, List.find?, h1, h2, h3, h4,
      if_true, if_false] <;>
    first
      | rfl
      | exact (disj_CB_IL s.x s.y h1 h2).elim
      | exact (disj_CB_TA s.x s.y h1 h3).elim
      | exact (disj_CB_AZ s.x s.y h1 h4).elim
      | exact (disj_IL_TA s.x s.y h2 h3).elim
      | exact (disj_IL_AZ s.x s.y h2 h4).elim
      | exact (disj_TA_AZ s.x s.y h3 h4).elim

/-- C3: every sample gets exactly one label, the first (in declaration
order) AOI whose rectangle contains it under inclusive bounds, defaulting to
"Outside". -/
theorem classification_first_match_total (s : Sample) :
    label_of s = firstMatchLabel_spec s := label_of_eq_firstMatch s

/-- C10: the four AOI rectangles are pairwise disjoint under the inclusive
containment predicate, so a sample lies in at most one named AOI and the
overwrite (last-match) loop of the source agrees with a first-match scan. -/
theorem aoi_rectangles_pairwise_disjoint (x y d t : ℚ) :
    List.Pairwise
        (fun a b => ¬(is_in_aoi x y a.2 = true ∧ is_in_aoi x y b.2 = true)) AOIs ∧
      (AOIs.filter (fun nb => is_in_aoi x y nb.2)).length ≤ 1 ∧
      label_of ⟨x, y, d, t⟩ = firstMatchLabel_spec ⟨x, y, d, t⟩ := by
  refine ⟨?_, ?_, label_of_eq_firstMatch _⟩
  · simp only [AOIs, List.pairwise_cons, List.mem_cons, List.not_mem_nil]
    refine ⟨?_, ?_, ?_, ?_⟩
    · rintro b hb ⟨ha, hbmem⟩
      rcases hb with h | h | h | h
      · subst h; exact disj_CB_IL x y ha hbmem
      · subst h; exact disj_CB_TA x y ha hbmem
      · subst h; exact disj_CB_AZ x y ha hbmem
      · exact h
    · rintro b hb ⟨ha, hbmem⟩
      rcases hb with h | h | h
      · subst h; exact disj_IL_TA x y ha hbmem
      · subst h; exact disj_IL_AZ x y ha hbmem
      · exact h
    · rintro b hb ⟨ha, hbmem⟩
      rcases hb with h | h
      · subst h; exact disj_TA_AZ x y ha hbmem
      · exact h
    · simp
  · cases h1 : is_in_aoi x y ((100, 100), (200, 200)) <;>
    cases h2 : is_in_aoi x y ((300, 100), (400, 200)) <;>
    cases h3 : is_in_aoi x y ((100, 300), (200, 400)) <;>
    cases h4 : is_in_aoi x y ((300, 300), (400, 400)) <;>
      simp only [AOIs, List.filter, h1, h2, h3, h4, List.length] <;>
      first
        | omega
        | exact (disj_CB_IL x y h1 h2).elim
        | exact (disj_CB_TA x y h1 h3).elim
        | exact (disj_CB_AZ x y h1 h4).elim
        | exact (disj_IL_TA x y h2 h3).elim
        | exact (disj_IL_AZ x y h2 h4).elim
        | exact (disj_TA_AZ x y h3 h4).elim

/-- Summing an indicator over a duplicate-free list of labels containing the
marked label yields the marked value. -/
lemma sum_map_indicator (a : String) (v : ℚ) :
    ∀ labs : List String, labs.Nodup → a ∈ labs →
      (labs.map (fun lab => if a = lab then v else 0)).sum = v := by
  intro labs
  induction labs with
  | nil => intro _ ha; cases ha
  | cons b bs ih =>
    intro hn ha
    rcases List.mem_cons.mp ha with h | h
    · subst h
      have hnotmem : a ∉ bs := (List.nodup_cons.mp hn).1
      have hzero : (bs.map (fun lab => if a = lab then v else 0)).sum = 0 := by
        apply List.sum_eq_zero
        intro q hq
        rcases List.mem_map.mp hq with ⟨lab, hlab, rfl⟩
        have : a ≠ lab := fun hEq => hnotmem (hEq ▸ hlab)
        simp [this]
      simp [hzero]
    · have hab : a ≠ b := by
        rintro rfl
        exact (List.nodup_cons.mp hn).1 h
      simp only [List.map_cons, List.sum_cons, if_neg hab,
        ih (List.nodup_cons.mp hn).2 h, zero_add]

/-- Grouping a labeled list by a duplicate-free cover of its labels and
summing each group recovers the total sum. -/
lemma fiber_sum (labs : List String) (hn : labs.Nodup) :
    ∀ l : List (Sample × String), (∀ p ∈ l, p.2 ∈ labs) →
      (labs.map
          (fun lab => ((l.filter (fun p => p.2 = lab)).map
            (fun p => p.1.duration)).sum)).sum
        = (l.map (fun p => p.1.duration)).sum := by
  intro l
  induction l with
  | nil => intro _; simp
  | cons p t ih =>
    intro hcov
    have hstep : ∀ lab : String,
        (((p :: t).filter (fun q => q.2 = lab)).map (fun q => q.1.duration)).sum
          = (if p.2 = lab then p.1.duration else 0)
            + ((t.filter (fun q => q.2 = lab)).map (fun q => q.1.duration)).sum := by
      intro lab
      by_cases h : p.2 = lab <;> simp [List.filter_cons, h]
    calc (labs.map
            (fun lab => (((p :: t).filter (fun q => q.2 = lab)).map
              (fun q => q.1.duration)).sum)).sum
        = (labs.map
            (fun lab => (if p.2 = lab then p.1.duration else 0)
              + ((t.filter (fun q => q.2 = lab)).map (fun q => q.1.duration)).sum)).sum := by
          exact congrArg List.sum (List.map_congr_left (fun lab _ => hstep lab))
      _ = (labs.map (fun lab => if p.2 = lab then p.1.duration else 0)).sum
            + (labs.map
                (fun lab => ((t.filter (fun q => q.2 = lab)).map
                  (fun q => q.1.duration)).sum)).sum := by
          rw [List.sum_map_add]
      _ = p.1.duration + (t.map (fun q => q.1.duration)).sum := by
          rw [sum_map_indicator p.2 p.1.duration labs hn
              (hcov p (List.mem_cons_self p t)),
            ih (fun q hq => hcov q (List.mem_cons_of_mem p hq))]
      _ = ((p :: t).map (fun q => q.1.duration)).sum := by simp

/-- The grouped total of line 25 is the plain duration total of the
dataframe. -/
lemma total_fixation_eq_sum (ds : List Sample) :
    total_fixation ds = (ds.map Sample.duration).sum := by
  have hcov : ∀ p ∈ classify ds, p.2 ∈ ((classify ds).map Prod.snd).dedup := by
    intro p hp
    exact List.mem_dedup.mpr (List.mem_map_of_mem Prod.snd hp)
  have h := fiber_sum ((classify ds).map Prod.snd).dedup
    (List.nodup_dedup _) (classify ds) hcov
  have hmap : ((classify ds).map (fun p => p.1.duration)) = ds.map Sample.duration := by
    simp [classify, List.map_map, Function.comp]
  unfold total_fixation groupLabels fixation_time
  rw [h, hmap]

/-- C6: the per-AOI duration sums (the "Outside" group included) add up to
the duration total of the dataset: the grouping is a partition. -/
theorem grouped_sum_partition (ds : List Sample) :
    ((groupLabels ds).map (fixation_time ds)).sum = (ds.map Sample.duration).sum := by
  have h := total_fixation_eq_sum ds
  unfold total_fixation at h
  exact h

/-- C4: the empty record is returned exactly when the duration total is
zero (the empty dataset included); no other input is degenerate. -/
theorem metrics_empty_iff_zero_total (ds : List Sample) :
    calculate_metrics ds = none ↔ (ds.map Sample.duration).sum = 0 := by
  by_cases h : total_fixation ds = 0
  · simp [calculate_metrics, h, ← total_fixation_eq_sum]
  · simp [calculate_metrics, h, ← total_fixation_eq_sum]

/-- C5: labeling touches nothing but the derived `AOI` column: the rows of
the labeled dataframe are the input rows, in order, with every numeric
column intact. -/
theorem classify_preserves_rows (ds : List Sample) :
    (classify ds).map Prod.fst = ds ∧
      (classify ds).length = ds.length ∧
      (classify ds).map (fun p => p.1.x) = ds.map Sample.x ∧
      (classify ds).map (fun p => p.1.y) = ds.map Sample.y ∧
      (classify ds).map (fun p => p.1.duration) = ds.map Sample.duration ∧
      (classify ds).map (fun p => p.1.timestamp) = ds.map Sample.timestamp := by
  refine ⟨?_, ?_, ?_, ?_, ?_, ?_⟩ <;>
    simp [classify, List.map_map, Function.comp_def]

/-- C9: one call of the engine is a pure function of the numeric columns of
the incoming dataframe state: two states agreeing on the numeric columns
produce identical results (no leftover `AOI` column is ever observed), and
running the call on the state a call leaves behind changes nothing. -/
theorem metrics_call_idempotent_stateless (st st' : List (Sample × String))
    (h : st.map Prod.fst = st'.map Prod.fst) :
    calculate_metrics_step st = calculate_metrics_step st' ∧
      calculate_metrics_step (calculate_metrics_step st).2 = calculate_metrics_step st := by
  constructor
  · unfold calculate_metrics_step
    rw [h]
  · unfold calculate_metrics_step
    have h2 : (classify (st.map Prod.fst)).map Prod.fst = st.map Prod.fst := by
      simp [classify, List.map_map, Function.comp]
    rw [h2]

/-- Closed instance of C9: two one-row states with different stale labels
and the after-state of a call are all processed identically. -/
theorem metrics_call_idempotent_stateless_witness :
    ([(⟨150, 150, 100, 50⟩, "stale")] : List (Sample × String)).map Prod.fst
        = ([(⟨150, 150, 100, 50⟩, "Outside")] : List (Sample × String)).map Prod.fst ∧
      calculate_metrics_step [(⟨150, 150, 100, 50⟩, "stale")]
        = calculate_metrics_step [(⟨150, 150, 100, 50⟩, "Outside")] := by
  have h : ([(⟨150, 150, 100, 50⟩, "stale")] : List (Sample × String)).map Prod.fst
      = ([(⟨150, 150, 100, 50⟩, "Outside")] : List (Sample × String)).map Prod.fst := by
    simp
  exact ⟨h, (metrics_call_idempotent_stateless _ _ h).1⟩

/-- C2: the efficiency score is the sum of exactly the independent additive
clauses that fire; an undefined first fixation behaves as the sentinel 99999
and so never earns the +15. -/
theorem score_additive_clauses (cov avg : ℚ) (ttf : Option ℚ) :
    calculate_efficiency_score cov avg ttf =
        (if 90 ≤ cov then (30 : ℤ) else 0) + (if avg < 200 then 10 else 0)
          + (if ttf.getD 99999 < 1000 then 15 else 0)
          + (if 95 < cov then 20 else 0)
          + (if 85 < cov ∧ avg < 220 then 25 else 0) ∧
      calculate_efficiency_score cov avg none =
        (if 90 ≤ cov then (30 : ℤ) else 0) + (if avg < 200 then 10 else 0)
          + (if 95 < cov then 20 else 0)
          + (if 85 < cov ∧ avg < 220 then 25 else 0) := by
  have h99 : ¬((99999 : ℚ) < 1000) := by norm_num
  constructor
  · simp only [calculate_efficiency_score]
    split_ifs <;> omega
  · simp only [calculate_efficiency_score, Option.getD, h99, if_false, ite_false]
    split_ifs <;> omega

/-- C7: the score is an integer in [0, 100] for every input, and the
performance label is the non-overlapping threshold function of the score. -/
theorem score_bounded_performance_thresholds (cov avg : ℚ) (ttf : Option ℚ) (s : ℤ) :
    0 ≤ calculate_efficiency_score cov avg ttf ∧
      calculate_efficiency_score cov avg ttf ≤ 100 ∧
      (85 ≤ s → classify_performance s = "Efficient") ∧
      (70 ≤ s → s < 85 → classify_performance s = "Acceptable") ∧
      (50 ≤ s → s < 70 → classify_performance s = "Needs Attention") ∧
      (s < 50 → classify_performance s = "High Risk") := by
  refine ⟨?_, ?_, ?_, ?_, ?_, ?_⟩
  · simp only [calculate_efficiency_score]
    split_ifs <;> omega
  · simp only [calculate_efficiency_score]
    split_ifs <;> omega
  · intro h
    simp [classify_performance, h]
  · intro h1 h2
    simp only [classify_performance]
    rw [if_neg (by omega), if_pos h1]
  · intro h1 h2
    simp only [classify_performance]
    rw [if_neg (by omega), if_neg (by omega), if_pos h1]
  · intro h
    simp only [classify_performance]
    rw [if_neg (by omega), if_neg (by omega), if_neg (by omega)]

/-- Closed instance of C7 at score 90 and an all-clauses input. -/
theorem score_bounded_performance_thresholds_witness :
    (85 : ℤ) ≤ 90 ∧ classify_performance 90 = "Efficient" ∧
      0 ≤ calculate_efficiency_score 100 100 none := by
  refine ⟨by norm_num, ?_, ?_⟩
  · exact (score_bounded_performance_thresholds 100 100 none 90).2.2.1 (by norm_num)
  · exact (score_bounded_performance_thresholds 100 100 none 90).1

/-- Rounding half to even never overshoots an integer upper bound of its
argument. -/
lemma roundHalfEven_le_of_le (q : ℚ) (B : ℤ) (h : q ≤ (B : ℚ)) :
    roundHalfEven q ≤ B := by
  have hfB : ⌊q⌋ ≤ B := by
    have := Int.floor_le_floor h
    simpa using this
  unfold roundHalfEven
  dsimp only
  split_ifs with h1 h2 h3
  · exact hfB
  · have hq : (1 : ℚ) / 2 ≤ q - (⌊q⌋ : ℚ) := le_of_not_lt h1
    have : (⌊q⌋ : ℚ) < (B : ℚ) := by linarith
    have : ⌊q⌋ < B := by exact_mod_cast this
    omega
  · exact hfB
  · have hq : (1 : ℚ) / 2 ≤ q - (⌊q⌋ : ℚ) := le_of_not_lt h1
    have : (⌊q⌋ : ℚ) < (B : ℚ) := by linarith
    have : ⌊q⌋ < B := by exact_mod_cast this
    omega

/-- Rounding half to even never undershoots an integer lower bound of its
argument. -/
lemma le_roundHalfEven_of_le (q : ℚ) (B : ℤ) (h : (B : ℚ) ≤ q) :
    B ≤ roundHalfEven q := by
  have hfB : B ≤ ⌊q⌋ := Int.le_floor.mpr h
  unfold roundHalfEven
  dsimp only
  split_ifs <;> omega

/-- Rounding to two decimals keeps a value inside [0, 100]. -/
lemma round2_mem_Icc (q : ℚ) (h0 : 0 ≤ q) (h100 : q ≤ 100) :
    0 ≤ round2 q ∧ round2 q ≤ 100 := by
  have hlow : (0 : ℤ) ≤ roundHalfEven (q * 100) :=
    le_roundHalfEven_of_le (q * 100) 0 (by push_cast; linarith)
  have hhigh : roundHalfEven (q * 100) ≤ (10000 : ℤ) :=
    roundHalfEven_le_of_le (q * 100) 10000 (by push_cast; linarith)
  have hlow' : (0 : ℚ) ≤ ((roundHalfEven (q * 100) : ℤ) : ℚ) := by exact_mod_cast hlow
  have hhigh' : ((roundHalfEven (q * 100) : ℤ) : ℚ) ≤ 10000 := by exact_mod_cast hhigh
  constructor
  · unfold round2
    exact div_nonneg hlow' (by norm_num)
  · unfold round2
    rw [div_le_iff (by norm_num : (0 : ℚ) < 100)]
    linarith

/-- Every row of the labeled dataframe comes from an input row. -/
lemma mem_classify_fst {ds : List Sample} {p : Sample × String}
    (hp : p ∈ classify ds) : p.1 ∈ ds := by
  rcases List.mem_map.mp hp with ⟨s, hs, rfl⟩
  exact hs

/-- Each group sum is nonnegative when every duration is. -/
lemma fixation_time_nonneg (ds : List Sample) (lab : String)
    (hdur : ∀ s ∈ ds, 0 ≤ s.duration) : 0 ≤ fixation_time ds lab := by
  apply List.sum_nonneg
  intro q hq
  rcases List.mem_map.mp hq with ⟨p, hp, rfl⟩
  exact hdur p.1 (mem_classify_fst (List.mem_filter.mp hp).1)

/-- Each group sum is at most the duration total when every duration is
nonnegative. -/
lemma fixation_time_le_total (ds : List Sample) (lab : String)
    (hdur : ∀ s ∈ ds, 0 ≤ s.duration) :
    fixation_time ds lab ≤ (ds.map Sample.duration).sum := by
  have hmap : ((classify ds).map (fun p => p.1.duration)) = ds.map Sample.duration := by
    simp [classify, List.map_map, Function.comp_def]
  have hsub : (((classify ds).filter (fun p => p.2 = lab)).map
      (fun p => p.1.duration)).Sublist ((classify ds).map (fun p => p.1.duration)) :=
    (List.filter_sublist _).map _
  have hnn : ∀ a ∈ (classify ds).map (fun p => p.1.duration), 0 ≤ a := by
    intro a ha
    rcases List.mem_map.mp ha with ⟨p, hp, rfl⟩
    exact hdur p.1 (mem_classify_fst hp)
  calc fixation_time ds lab
      ≤ ((classify ds).map (fun p => p.1.duration)).sum :=
        List.Sublist.sum_le_sum hsub hnn
    _ = (ds.map Sample.duration).sum := by rw [hmap]

/-- C8 (amended): when every duration is nonnegative, the coverage figure of
a returned record lies in [0, 100]. -/
theorem coverage_bounded_of_nonneg (ds : List Sample) (m : Metrics)
    (hdur : ∀ s ∈ ds, 0 ≤ s.duration)
    (hm : calculate_metrics ds = some m) :
    0 ≤ m.aoiCoverage ∧ m.aoiCoverage ≤ 100 := by
  by_cases h0 : total_fixation ds = 0
  · simp [calculate_metrics, h0] at hm
  · have hmrec := hm
    simp only [calculate_metrics, h0, if_neg, ite_false, Option.some.injEq] at hmrec
    have hT : total_fixation ds = (ds.map Sample.duration).sum := total_fixation_eq_sum ds
    have hTnn : 0 ≤ total_fixation ds := by
      rw [hT]
      apply List.sum_nonneg
      intro a ha
      rcases List.mem_map.mp ha with ⟨s, hs, rfl⟩
      exact hdur s hs
    have hTpos : 0 < total_fixation ds := lt_of_le_of_ne hTnn (Ne.symm h0)
    have hOnn : 0 ≤ fixation_time ds "Outside" := fixation_time_nonneg ds _ hdur
    have hOle : fixation_time ds "Outside" ≤ total_fixation ds := by
      rw [hT]
      exact fixation_time_le_total ds _ hdur
    set T := total_fixation ds with hTdef
    set O := fixation_time ds "Outside" with hOdef
    have hcov0 : 0 ≤ (T - O) / T * 100 := by
      have : 0 ≤ (T - O) / T := div_nonneg (by linarith) (le_of_lt hTpos)
      linarith
    have hcov100 : (T - O) / T * 100 ≤ 100 := by
      have hle1 : (T - O) / T ≤ 1 := by
        rw [div_le_one hTpos]
        linarith
      linarith
    have hb := round2_mem_Icc ((T - O) / T * 100) hcov0 hcov100
    have hcov : m.aoiCoverage = round2 ((T - O) / T * 100) := by
      rw [← hmrec]
    rw [hcov]
    exact hb

/-- Closed instance of C8: the scenario-A dataset (one fixation inside
Component Bin) has all durations nonnegative and its coverage is within
bounds. -/
theorem coverage_bounded_of_nonneg_witness :
    (∀ s ∈ ([⟨150, 150, 100, 50⟩] : List Sample), 0 ≤ s.duration) ∧
      calculate_metrics [⟨150, 150, 100, 50⟩]
        = some ⟨100, 100, none, 85, "Efficient"⟩ ∧
      0 ≤ (100 : ℚ) ∧ (100 : ℚ) ≤ 100 := by
  have hdur : ∀ s ∈ ([⟨150, 150, 100, 50⟩] : List Sample), 0 ≤ s.duration := by
    intro s hs
    rcases List.mem_singleton.mp hs with rfl
    norm_num
  have hd : (["Component Bin"] : List String).dedup = ["Component Bin"] := by decide
  have h1 : ("Component Bin" = "Outside") = False := by decide
  have h2 : ("Component Bin" = "Instruction Label") = False := by decide
  have hm : calculate_metrics [⟨150, 150, 100, 50⟩]
      = some ⟨100, 100, none, 85, "Efficient"⟩ := by
    norm_num [calculate_metrics, total_fixation, groupLabels, classify, fixation_time,
      avg_fixation_duration, time_to_first_fixation, round2, roundHalfEven,
      calculate_efficiency_score, classify_performance, label_of, AOIs, is_in_aoi,
      hd, h1, h2, List.min?, List.filter_cons, List.filter_nil]
  exact ⟨hdur, hm, (coverage_bounded_of_nonneg _ _ hdur hm).1,
    (coverage_bounded_of_nonneg _ _ hdur hm).2⟩

/-- Counterexample to C8 as stated: with a negative duration on the
"Outside" row the returned coverage is 200, outside [0, 100], on a
non-degenerate dataset (total fixation 100 ≠ 0). -/
theorem coverage_out_of_bounds_cex :
    (calculate_metrics [⟨0, 0, -100, 0⟩, ⟨150, 150, 200, 5⟩]).map Metrics.aoiCoverage
        = some 200 ∧ ¬((200 : ℚ) ≤ 100) := by
  constructor
  · have hd : (["Outside", "Component Bin"] : List String).dedup
        = ["Outside", "Component Bin"] := by decide
    have h1 : ("Outside" = "Component Bin") = False := by decide
    have h2 : ("Component Bin" = "Outside") = False := by decide
    have h3 : ("Outside" = "Instruction Label") = False := by decide
    have h4 : ("Component Bin" = "Instruction Label") = False := by decide
    norm_num [calculate_metrics, total_fixation, groupLabels, classify, fixation_time,
      avg_fixation_duration, time_to_first_fixation, round2, roundHalfEven,
      calculate_efficiency_score, classify_performance, label_of, AOIs, is_in_aoi,
      hd, h1, h2, h3, h4, List.min?, List.filter_cons, List.filter_nil]
  · norm_num

/-- Counterexample to C1 as stated: on the scenario-B dataset the efficiency
score is 15, not 0 — the first fixation on Instruction Label at 500 ms is
below 1000 ms and earns the +15 clause. -/
theorem scenarioB_score_not_zero :
    (calculate_metrics [⟨350, 150, 50, 500⟩, ⟨0, 0, 950, 600⟩]).map
        Metrics.efficiencyScore = some 15 ∧
      (some (15 : ℤ) ≠ some 0) := by
  constructor
  · have hd : (["Instruction Label", "Outside"] : List String).dedup
        = ["Instruction Label", "Outside"] := by decide
    have h1 : ("Outside" = "Instruction Label") = False := by decide
    have h2 : ("Instruction Label" = "Outside") = False := by decide
    norm_num [calculate_metrics, total_fixation, groupLabels, classify, fixation_time,
      avg_fixation_duration, time_to_first_fixation, round2, roundHalfEven,
      calculate_efficiency_score, classify_performance, label_of, AOIs, is_in_aoi,
      hd, h1, h2, List.min?, List.filter_cons, List.filter_nil]
  · decide

/-- C1 (amended): the scenario-B dataset yields total fixation 1000,
coverage 5.00, first Instruction-Label fixation 500.00, performance
"High Risk", and efficiency score 15 (the +15 first-fixation clause fires;
every other clause fails). -/
theorem scenarioB_metrics :
    total_fixation [⟨350, 150, 50, 500⟩, ⟨0, 0, 950, 600⟩] = 1000 ∧
      calculate_metrics [⟨350, 150, 50, 500⟩, ⟨0, 0, 950, 600⟩]
        = some ⟨5, 500, some 500, 15, "High Risk"⟩ := by
  have hd : (["Instruction Label", "Outside"] : List String).dedup
      = ["Instruction Label", "Outside"] := by decide
  have h1 : ("Outside" = "Instruction Label") = False := by decide
  have h2 : ("Instruction Label" = "Outside") = False := by decide
  constructor
  · norm_num [total_fixation, groupLabels, classify, fixation_time, label_of, AOIs,
      is_in_aoi, hd, h1, h2, List.filter_cons, List.filter_nil]
  · norm_num [calculate_metrics, total_fixation, groupLabels, classify, fixation_time,
      avg_fixation_duration, time_to_first_fixation, round2, roundHalfEven,
      calculate_efficiency_score, classify_performance, label_of, AOIs, is_in_aoi,
      hd, h1, h2, List.min?, List.filter_cons, List.filter_nil]
